import Mathlib

/-!
Verification of `scripts/update_ticker.mjs`.

The script fetches five FRED commodity series and one USD→EUR exchange
rate, derives per-commodity display items (rounded converted value plus a
formatted annotation with percentage deltas) and writes a `ticker.json`
document, falling back to a fixed document on failure.

The shallow embedding below translates the script into Lean:
* JavaScript numbers are modelled exactly by `JSNum` (a rational, `nan`,
  or a signed infinity).  Rational arithmetic is exact, so float rounding
  error and overflow to `Infinity` are idealised away; none of the
  verified properties depend on them.
* JavaScript exceptions are modelled by `Except String`; the error string
  stands for the thrown error value.
* `null`/`undefined` observation values are modelled by `ObsVal.null` /
  `ObsVal.undef` (they behave differently under `Number(·)`).
* The network is modelled as, for each endpoint, a function from the
  attempt number to that attempt's outcome (`fetchJSON` retries).
* Real time (timeouts, backoff sleeps) and the file system write are not
  modelled; `RunResult.written` is the document handed to `fs.writeFile`.
-/

/- The Batteries rational operations are `@[irreducible]`, which blocks
`decide`-style evaluation of the embedding on concrete inputs; restore the
default reducibility for this development. -/
attribute [local semireducible] Rat.mul Rat.add Rat.inv Rat.sub Rat.ofScientific

/- Concrete runs are compared as `Except` values. -/
deriving instance DecidableEq for Except

namespace UpdateTicker

/-- A JavaScript number: an exact rational, `NaN`, or `Infinity`
(`inf true` is `-Infinity`).  Arithmetic on the `num` constructor is exact
rational arithmetic (idealising IEEE doubles). -/
inductive JSNum where
  | num (q : ℚ)
  | nan
  | inf (neg : Bool)
deriving DecidableEq

/-- JavaScript unary minus. -/
def jsNeg : JSNum → JSNum
  | .num q => .num (-q)
  | .nan => .nan
  | .inf b => .inf (!b)

/-- JavaScript `+` on numbers. -/
def jsAdd : JSNum → JSNum → JSNum
  | .nan, _ => .nan
  | _, .nan => .nan
  | .num a, .num b => .num (a + b)
  | .inf a, .inf b => if a = b then .inf a else .nan
  | .inf a, .num _ => .inf a
  | .num _, .inf b => .inf b

/-- JavaScript `-` on numbers. -/
def jsSub (a b : JSNum) : JSNum := jsAdd a (jsNeg b)

/-- JavaScript `*` on numbers. -/
def jsMul : JSNum → JSNum → JSNum
  | .nan, _ => .nan
  | _, .nan => .nan
  | .num a, .num b => .num (a * b)
  | .inf a, .inf b => .inf (a.xor b)
  | .inf a, .num q => if q = 0 then .nan else .inf (a.xor (decide (q < 0)))
  | .num q, .inf b => if q = 0 then .nan else .inf (b.xor (decide (q < 0)))

/-- JavaScript `/` on numbers (division by zero gives `NaN` or a signed
infinity; the model has no negative zero). -/
def jsDiv : JSNum → JSNum → JSNum
  | .nan, _ => .nan
  | _, .nan => .nan
  | .num a, .num b =>
    if b = 0 then (if a = 0 then .nan else .inf (decide (a < 0)))
    else .num (a / b)
  | .num _, .inf _ => .num 0
  | .inf a, .num q => .inf (a.xor (decide (q < 0)))
  | .inf _, .inf _ => .nan

/-- `Math.round`: halves round toward positive infinity. -/
def jsRound : JSNum → JSNum
  | .num q => .num ((⌊q + 1/2⌋ : ℤ) : ℚ)
  | x => x

/-- The global `isFinite` applied to a number-or-`null` value.  Note the
JavaScript pitfall embodied here: `isFinite(null)` is `true` because the
global `isFinite` first coerces its argument with `Number`, and
`Number(null)` is `0`. -/
def isFiniteJS : Option JSNum → Bool
  | none => true
  | some (.num _) => true
  | some _ => false

/-- JavaScript `x >= 0`. -/
def jsGeZero : JSNum → Bool
  | .num q => decide (0 ≤ q)
  | .inf b => !b
  | .nan => false

/-- Whitespace trimming of `Number(string)` (the runtime trims the ends of
the string before parsing), implemented structurally over the character
list. -/
def trimChars (l : List Char) : List Char :=
  ((l.dropWhile Char.isWhitespace).reverse.dropWhile Char.isWhitespace).reverse

/-- `s.startsWith(p)`, implemented structurally over the character lists. -/
def strStartsWith (s p : String) : Bool :=
  p.toList.isPrefixOf s.toList

/-- Digit list to natural number, most significant first. -/
def digitsToNat (l : List Char) : Nat :=
  l.foldl (fun acc c => acc * 10 + (c.toNat - 48)) 0

/-- All characters are decimal digits. -/
def allDigits (l : List Char) : Bool := l.all Char.isDigit

/-- Parse the mantissa part of a decimal literal: `digits`, `digits.`,
`digits.digits` or `.digits`. -/
def parseMantissa (l : List Char) : Option ℚ :=
  let p := l.span (fun c => c != '.')
  match p.2 with
  | [] => if !p.1.isEmpty && allDigits p.1 then some ((digitsToNat p.1 : ℚ)) else none
  | _ :: fp =>
    if allDigits p.1 && allDigits fp && (!p.1.isEmpty || !fp.isEmpty) then
      some ((digitsToNat p.1 : ℚ) + (digitsToNat fp : ℚ) / (10 : ℚ) ^ fp.length)
    else none

/-- Parse an optional exponent tail (everything after the mantissa):
either empty, or an `e`/`E` marker followed by an optionally signed digit
string. -/
def parseExponent (l : List Char) : Option ℤ :=
  match l with
  | [] => some 0
  | _ :: es =>
    match es with
    | '+' :: ds => if !ds.isEmpty && allDigits ds then some ((digitsToNat ds : ℤ)) else none
    | '-' :: ds => if !ds.isEmpty && allDigits ds then some (-(digitsToNat ds : ℤ)) else none
    | ds => if !ds.isEmpty && allDigits ds then some ((digitsToNat ds : ℤ)) else none

/-- JavaScript `Number(string)` for the decimal-literal and `Infinity`
grammar (hex/octal/binary literal forms, which never occur in FRED data,
are not modelled and fall to `NaN` like any other unparseable string). -/
def jsNumber (s : String) : JSNum :=
  let l := trimChars s.toList
  if l = [] then .num 0
  else
    let sb : Bool × List Char :=
      match l with
      | '+' :: rest => (false, rest)
      | '-' :: rest => (true, rest)
      | _ => (false, l)
    if sb.2 = "Infinity".toList then .inf sb.1
    else
      let mp := sb.2.span (fun c => c != 'e' && c != 'E')
      match parseMantissa mp.1, parseExponent mp.2 with
      | some m, some e => .num ((if sb.1 then -1 else 1) * m * (10 : ℚ) ^ e)
      | _, _ => .nan

/-- An observation value as delivered by the parsed JSON: a string, JSON
`null`, or an absent field (`undefined` on access). -/
inductive ObsVal where
  | str (s : String)
  | null
  | undef
deriving DecidableEq

/-- JavaScript `Number` applied to an observation value:
`Number(null) = 0`, `Number(undefined) = NaN`. -/
def obsNumber : ObsVal → JSNum
  | .str s => jsNumber s
  | .null => .num 0
  | .undef => .nan

/-- One FRED observation `{date, value}`. -/
structure Obs where
  date : String
  value : ObsVal
deriving DecidableEq

/-- The `{date, v}` record built by `lastNonNull` / `prevNonNull`. -/
structure Entry where
  date : String
  v : JSNum
deriving DecidableEq

/-- The validity test of `lastNonNull` / `prevNonNull`:
`v !== "." && v != null` (loose `!=` rejects both `null` and
`undefined`). -/
def validB (o : Obs) : Bool :=
  match o.value with
  | .str v => v != "."
  | _ => false

/-- The entry built from a kept observation. -/
def entryOf (o : Obs) : Entry := ⟨o.date, obsNumber o.value⟩

/-- Loop body of `lastNonNull`, running over the reversed list (the
source iterates indices from the end). -/
def lastNonNullAux : List Obs → Option Entry
  | [] => none
  | o :: rest =>
    match o.value with
    | .str v => if v ≠ "." then some ⟨o.date, jsNumber v⟩ else lastNonNullAux rest
    | _ => lastNonNullAux rest

/-- `lastNonNull(observations)`: the last entry whose value is neither
the sentinel `"."` nor `null`/`undefined`, with the value coerced by
`Number`. -/
def lastNonNull (observations : List Obs) : Option Entry :=
  lastNonNullAux observations.reverse

/-- Loop body of `prevNonNull`, running over the reversed list with the
`found` counter of the source. -/
def prevNonNullAux : List Obs → Nat → Option Entry
  | [], _ => none
  | o :: rest, found =>
    match o.value with
    | .str v =>
      if v ≠ "." then
        if found + 1 = 2 then some ⟨o.date, jsNumber v⟩
        else prevNonNullAux rest (found + 1)
      else prevNonNullAux rest found
    | _ => prevNonNullAux rest found

/-- `prevNonNull(observations)`: the second valid entry counted from the
end. -/
def prevNonNull (observations : List Obs) : Option Entry :=
  prevNonNullAux observations.reverse 0

/-- `avgForYear(observations, year)`: filter to dates starting
`"<year>-"`, map `"."` to `null` and everything else through `Number`
(so a JSON `null` value contributes `0`), drop the `null`s, and average;
`null` when nothing remains. -/
def avgForYear (observations : List Obs) (year : String) : Option JSNum :=
  let vals := (observations.filter (fun o => strStartsWith o.date (year ++ "-"))
      |>.map (fun o => if o.value = .str "." then none else some (obsNumber o.value))
      |>.filterMap id)
  if vals.length = 0 then none
  else some (jsDiv (vals.foldl jsAdd (.num 0)) (.num (vals.length : ℚ)))

/-- `pct(cur, base)`: `null` for a `null` base, else
`((cur - base) / base) * 100`. -/
def pct (cur : JSNum) (base : Option JSNum) : Option JSNum :=
  match base with
  | none => none
  | some b => some (jsMul (jsDiv (jsSub cur b) b) (.num 100))

/-- German short month names as produced by
`toLocaleDateString("de-DE", {month: "short", year: "numeric"})` under
ICU. -/
def monthShortDE (m : Nat) : String :=
  match m with
  | 1 => "Jan."
  | 2 => "Feb."
  | 3 => "März"
  | 4 => "Apr."
  | 5 => "Mai"
  | 6 => "Juni"
  | 7 => "Juli"
  | 8 => "Aug."
  | 9 => "Sept."
  | 10 => "Okt."
  | 11 => "Nov."
  | 12 => "Dez."
  | _ => ""

/-- `monthLabel(iso)`: `new Date(iso)` for an ISO `YYYY-MM-DD` string
followed by the de-DE short-month/year rendering (UTC, as on the CI
runner that executes the script); out-of-range components give the
`Invalid Date` rendering. -/
def monthLabel (iso : String) : String :=
  let y := iso.toList.take 4
  let mcs := (iso.toList.drop 5).take 2
  let m := if !mcs.isEmpty && allDigits mcs then digitsToNat mcs else 0
  if allDigits y = true ∧ y.length = 4 ∧ 1 ≤ m ∧ m ≤ 12 then
    monthShortDE m ++ " " ++ String.mk y
  else "Invalid Date"

/-- Two-digit zero padding. -/
def pad2 (n : Nat) : String :=
  if n < 10 then "0" ++ toString n else toString n

/-- `q.toFixed(2)` on an exact rational: two fractional digits, ties
away from zero (ECMA-262 negates first and then picks the larger
candidate). -/
def toFixed2Q (q : ℚ) : String :=
  let a : ℚ := if q < 0 then -q else q
  let n : Nat := (⌊a * 100 + 1/2⌋ : ℤ).toNat
  (if q < 0 then "-" else "") ++ toString (n / 100) ++ "." ++ pad2 (n % 100)

/-- `toFixed(2)` on a `JSNum` (`NaN` and infinities format as their
names). -/
def toFixed2 : JSNum → String
  | .num q => toFixed2Q q
  | .nan => "NaN"
  | .inf b => if b then "-Infinity" else "Infinity"

/-- The `.replace(".", ",")` call: a JavaScript `replace` with a string
pattern substitutes only the first occurrence. -/
def replaceFirstDot : List Char → List Char
  | [] => []
  | c :: rest => if c = '.' then ',' :: rest else c :: replaceFirstDot rest

/-- One delta line of `buildItem`:
`if (isFinite(d)) parts.push(sign + d.toFixed(2).replace(".", ",") + suffix)`.
When `d` is `null` the `isFinite` guard passes (see `isFiniteJS`) and
`null.toFixed` throws a `TypeError`. -/
def deltaFragment (d : Option JSNum) (suffix : String) : Except String (Option String) :=
  if isFiniteJS d then
    match d with
    | none => .error "TypeError: null has no toFixed"
    | some n =>
      .ok (some ((if jsGeZero n then "+" else "")
        ++ String.mk (replaceFirstDot (toFixed2 n).toList) ++ suffix))
  else .ok none

/-- `1 cent/lb = 22.04622 USD/t` conversion constant. -/
def C_PER_LB_TO_USD_PER_T : ℚ := 22.04622

/-- `toEURperT(kind, v, usd2eur)`. -/
def toEURperT (kind : String) (vUSDorCentLb usd2eur : JSNum) : JSNum :=
  if kind = "sugar" then jsMul (jsMul vUSDorCentLb (.num C_PER_LB_TO_USD_PER_T)) usd2eur
  else jsMul vUSDorCentLb usd2eur

/-- A ticker item: the commodity items carry all three fields, the
trailing attribution line only `text`. -/
inductive Item where
  | display (text : String) (value : JSNum) (extra : String)
  | textOnly (text : String)
deriving DecidableEq

/-- The `text` field of an item. -/
def Item.text : Item → String
  | .display t _ _ => t
  | .textOnly t => t

/-- The `value` field of an item, when present. -/
def Item.toValue : Item → Option JSNum
  | .display _ v _ => some v
  | .textOnly _ => none

/-- Whether an item is a three-field commodity item. -/
def Item.isDisplay : Item → Bool
  | .display _ _ _ => true
  | .textOnly _ => false

/-- `buildItem(label, kind, obs, usd2eur)`.  Returns `ok none` when there
is no valid current value, `ok (some item)` on success, and `error` when
a `TypeError` is thrown while formatting a `null` delta. -/
def buildItem (label kind : String) (obs : List Obs) (usd2eur : JSNum) :
    Except String (Option Item) :=
  match lastNonNull obs with
  | none => .ok none
  | some cur =>
    let prev := prevNonNull obs
    let avg24 := avgForYear obs "2024"
    let curEUR := toEURperT kind cur.v usd2eur
    let vsPrev : Option JSNum :=
      match prev with
      | some p => pct cur.v (some p.v)
      | none => none
    let vsAvg : Option JSNum :=
      match avg24 with
      | some a => pct cur.v (some a)
      | none => none
    match deltaFragment vsPrev "% vs VM" with
    | .error e => .error e
    | .ok f1 =>
      match deltaFragment vsAvg "% vs 2024-Ø" with
      | .error e => .error e
      | .ok f2 =>
        let parts := [monthLabel cur.date] ++ f1.toList ++ f2.toList
        .ok (some (.display label (jsRound curEUR)
          ("EUR/t • " ++ String.intercalate " • " parts)))

/-- The document written to `ticker.json`. -/
structure OutputDoc where
  items : List Item
deriving DecidableEq

/-- `fallbackData(reason)`. -/
def fallbackData (reason : String) : OutputDoc :=
  ⟨[ .display "🍫 Kakao" (.num 4200) ("EUR/t • " ++ reason),
     .display "🍚 Zucker" (.num 680) ("EUR/t • " ++ reason),
     .display "🌾 Weizen" (.num 255) ("EUR/t • " ++ reason),
     .display "🌽 Mais" (.num 205) ("EUR/t • " ++ reason),
     .display "🍚 Reis" (.num 520) ("EUR/t • " ++ reason),
     .textOnly ("Quelle: IMF über FRED (" ++ reason ++ ")") ]⟩

/-- The rates object of the exchange-rate response. -/
structure FxRates where
  EUR : Option JSNum
deriving DecidableEq

/-- The exchange-rate response body (`rates` may be absent). -/
structure FxResponse where
  rates : Option FxRates
deriving DecidableEq

/-- The FRED response body (`observations` may be absent). -/
structure FredResponse where
  observations : Option (List Obs)
deriving DecidableEq

/-- Retry loop of `fetchJSON`: `attempt i` is the outcome of the
`i`-th HTTP attempt (a parsed body or a thrown transport error);
`remaining` counts the retries still allowed.  Returns the first
success, or the last error once the budget is exhausted.  The backoff
sleeps are timing only and are not modelled. -/
def fetchJSONLoop {α : Type} (attempt : Nat → Except String α) :
    Nat → Nat → Except String α
  | i, remaining =>
    match attempt i, remaining with
    | .ok a, _ => .ok a
    | .error e, 0 => .error e
    | .error _, r + 1 => fetchJSONLoop attempt (i + 1) r

/-- `fetchJSON(url, {retries})` as a function of the per-attempt
outcomes. -/
def fetchJSON {α : Type} (retries : Nat) (attempt : Nat → Except String α) :
    Except String α :=
  fetchJSONLoop attempt 0 retries

/-- `usdToEur()`: fetch (2 retries) and read `fx?.rates?.EUR ?? 0.93`. -/
def usdToEur (attempt : Nat → Except String (Option FxResponse)) :
    Except String JSNum :=
  match fetchJSON 2 attempt with
  | .error e => .error e
  | .ok fx => .ok (((fx.bind FxResponse.rates).bind FxRates.EUR).getD (.num 0.93))

/-- `fredSeries(series)`: throw when the API key is falsy (absent or
empty), else fetch (2 retries) and read `j?.observations ?? []`. -/
def fredSeries (apiKey : Option String)
    (attempt : Nat → Except String (Option FredResponse)) :
    Except String (List Obs) :=
  if (apiKey.getD "").isEmpty then .error "FRED_API_KEY fehlt"
  else
    match fetchJSON 2 attempt with
    | .error e => .error e
    | .ok j => .ok ((j.bind FredResponse.observations).getD [])

/-- The six endpoints the script talks to, each as a per-attempt outcome
function. -/
structure Network where
  fx : Nat → Except String (Option FxResponse)
  cocoa : Nat → Except String (Option FredResponse)
  sugar : Nat → Except String (Option FredResponse)
  wheat : Nat → Except String (Option FredResponse)
  corn : Nat → Except String (Option FredResponse)
  rice : Nat → Except String (Option FredResponse)

/-- The attribution line appended after the five commodity items. -/
def attributionItem : Item := .textOnly "Quelle: IMF über FRED (täglich aktualisiert)"

/-- The `try` block of the main IIFE: fetch everything (a rejection of
any of the six promises rejects the `Promise.all`), build the five items
plus the attribution line, drop the absent ones, and substitute
`fallbackData("leer")` if the resulting array were empty. -/
def tryMain (apiKey : Option String) (net : Network) : Except String OutputDoc := do
  let usd2eur ← usdToEur net.fx
  let cocoaObs ← fredSeries apiKey net.cocoa
  let sugarObs ← fredSeries apiKey net.sugar
  let wheatObs ← fredSeries apiKey net.wheat
  let cornObs ← fredSeries apiKey net.corn
  let riceObs ← fredSeries apiKey net.rice
  let i1 ← buildItem "🍫 Kakao" "cocoa" cocoaObs usd2eur
  let i2 ← buildItem "🍚 Zucker" "sugar" sugarObs usd2eur
  let i3 ← buildItem "🌾 Weizen" "wheat" wheatObs usd2eur
  let i4 ← buildItem "🌽 Mais" "corn" cornObs usd2eur
  let i5 ← buildItem "🍚 Reis" "rice" riceObs usd2eur
  let items := ([i1, i2, i3, i4, i5, some attributionItem] : List (Option Item)).filterMap id
  pure (if items.length ≠ 0 then ⟨items⟩ else fallbackData "leer")

/-- Outcome of one run: the document written to the output file and the
process exit code. -/
structure RunResult where
  written : OutputDoc
  exitCode : Nat
deriving DecidableEq

/-- The whole main IIFE: on any throw the `catch` writes
`fallbackData("Fehler")`; neither path calls `process.exit`, so the
process exits 0 either way. -/
def runMain (apiKey : Option String) (net : Network) : RunResult :=
  match tryMain apiKey net with
  | .ok out => ⟨out, 0⟩
  | .error _ => ⟨fallbackData "Fehler", 0⟩

/-! Helper lemmas: the scanning loops are characterised by `filter`/`map`
pipelines over the observation list. -/

theorem lastNonNullAux_eq (l : List Obs) :
    lastNonNullAux l = ((l.filter validB).map entryOf).head? := by
  induction l with
  | nil => rfl
  | cons o t ih =>
    obtain ⟨d, v⟩ := o
    cases v with
    | str s =>
      by_cases h : s = "." <;>
        simp [lastNonNullAux, validB, h, entryOf, obsNumber, ih]
    | null => simp [lastNonNullAux, validB, ih]
    | undef => simp [lastNonNullAux, validB, ih]

theorem lastNonNull_eq (obs : List Obs) :
    lastNonNull obs = ((obs.filter validB).map entryOf).getLast? := by
  rw [lastNonNull, lastNonNullAux_eq, List.filter_reverse, List.map_reverse,
    List.head?_reverse]

theorem prevNonNullAux_one (l : List Obs) :
    prevNonNullAux l 1 = ((l.filter validB).map entryOf).head? := by
  induction l with
  | nil => rfl
  | cons o t ih =>
    obtain ⟨d, v⟩ := o
    cases v with
    | str s =>
      by_cases h : s = "." <;>
        simp [prevNonNullAux, validB, h, entryOf, obsNumber, ih]
    | null => simp [prevNonNullAux, validB, ih]
    | undef => simp [prevNonNullAux, validB, ih]

theorem prevNonNullAux_zero (l : List Obs) :
    prevNonNullAux l 0 = ((l.filter validB).map entryOf)[1]? := by
  induction l with
  | nil => rfl
  | cons o t ih =>
    obtain ⟨d, v⟩ := o
    cases v with
    | str s =>
      by_cases h : s = "."
      · simp [prevNonNullAux, validB, h, ih]
      · simp [prevNonNullAux, validB, h, prevNonNullAux_one, entryOf, obsNumber,
          List.head?_eq_getElem?]
    | null => simp [prevNonNullAux, validB, ih]
    | undef => simp [prevNonNullAux, validB, ih]

theorem prevNonNull_eq (obs : List Obs) :
    prevNonNull obs = (((obs.filter validB).map entryOf).reverse)[1]? := by
  rw [prevNonNull, prevNonNullAux_zero, List.filter_reverse, List.map_reverse]

theorem date_le_of_getLast? : ∀ (l : List Entry),
    l.Pairwise (fun a b => a.date ≤ b.date) →
    ∀ x ∈ l, ∀ e, l.getLast? = some e → x.date ≤ e.date := by
  intro l
  induction l with
  | nil => intro _ x hx; cases hx
  | cons a t ih =>
    intro hp x hx e he
    cases t with
    | nil =>
      simp only [List.mem_singleton] at hx
      simp only [List.getLast?_singleton, Option.some.injEq] at he
      subst hx; subst he; exact le_refl _
    | cons b t2 =>
      rw [List.getLast?_cons_cons] at he
      rcases List.mem_cons.mp hx with rfl | hx2
      · have hmem : e ∈ b :: t2 := List.mem_of_getLast?_eq_some he
        exact (List.pairwise_cons.mp hp).1 e hmem
      · exact ih (List.pairwise_cons.mp hp).2 x hx2 e he

/-- C4: `lastNonNull` returns exactly the last entry of the series whose
value is neither the sentinel `"."` nor `null`, with the value coerced by
`Number` (first conjunct: it is the last element of the valid-entry
pipeline, hence `none` exactly when no valid entry exists); when it is
absent the whole commodity item is omitted (second conjunct); and on a
date-ascending series the returned entry is chronologically last among
the valid entries (third conjunct). -/
theorem c4_lastNonNull (obs : List Obs) (label kind : String) (r : JSNum) :
    lastNonNull obs = ((obs.filter validB).map entryOf).getLast?
    ∧ (lastNonNull obs = none → buildItem label kind obs r = .ok none)
    ∧ (obs.Pairwise (fun a b => a.date ≤ b.date) →
        ∀ e, lastNonNull obs = some e → ∀ o ∈ obs, validB o = true → o.date ≤ e.date) := by
  refine ⟨lastNonNull_eq obs, ?_, ?_⟩
  · intro h; simp [buildItem, h]
  · intro hp e he o ho hv
    have hmem : entryOf o ∈ (obs.filter validB).map entryOf :=
      List.mem_map_of_mem _ (List.mem_filter.mpr ⟨ho, hv⟩)
    have hpair : ((obs.filter validB).map entryOf).Pairwise (fun a b => a.date ≤ b.date) :=
      List.pairwise_map.mpr (List.Pairwise.sublist (List.filter_sublist obs) hp)
    have hlast : ((obs.filter validB).map entryOf).getLast? = some e := by
      rw [← lastNonNull_eq]; exact he
    exact date_le_of_getLast? _ hpair (entryOf o) hmem e hlast

/-- Witness for C4: on an all-sentinel series `lastNonNull` is absent and
the commodity item is omitted. -/
theorem c4_lastNonNull_witness :
    buildItem "🍫 Kakao" "cocoa" [⟨"2024-01-01", .str "."⟩] (.num 1) = .ok none :=
  (c4_lastNonNull [⟨"2024-01-01", .str "."⟩] "🍫 Kakao" "cocoa" (.num 1)).2.1 rfl

/-- C5: `prevNonNull` returns the second valid entry counted from the end
of the series (index 1 of the reversed valid-entry pipeline, while
`lastNonNull` returns index 0 — a distinct position), and is absent for a
series with fewer than two valid entries. -/
theorem c5_prevNonNull (obs : List Obs) :
    prevNonNull obs = (((obs.filter validB).map entryOf).reverse)[1]?
    ∧ lastNonNull obs = (((obs.filter validB).map entryOf).reverse)[0]?
    ∧ ((obs.filter validB).length < 2 → prevNonNull obs = none) := by
  refine ⟨prevNonNull_eq obs, ?_, ?_⟩
  · rw [lastNonNull_eq, ← List.head?_reverse, List.head?_eq_getElem?]
  · intro h
    rw [prevNonNull_eq]
    apply List.getElem?_eq_none
    simp only [List.length_reverse, List.length_map]
    omega

/-- Witness for C5: a series with a single valid entry has no previous
valid entry. -/
theorem c5_prevNonNull_witness :
    prevNonNull [⟨"2024-03-01", .str "20"⟩] = none :=
  (c5_prevNonNull [⟨"2024-03-01", .str "20"⟩]).2.2 (by decide)

/-- The observations that `avgForYear` keeps: date in the target year and
value not the sentinel `"."` (a JSON `null` value is kept and contributes
`Number(null) = 0`). -/
def inYearValid (year : String) (obs : List Obs) : List Obs :=
  obs.filter fun o => strStartsWith o.date (year ++ "-") && decide (o.value ≠ ObsVal.str ".")

theorem avgForYear_vals (obs : List Obs) (year : String) :
    ((obs.filter (fun o => strStartsWith o.date (year ++ "-"))).map
        (fun o => if o.value = .str "." then none else some (obsNumber o.value))).filterMap id
      = (inYearValid year obs).map (fun o => obsNumber o.value) := by
  induction obs with
  | nil => rfl
  | cons o t ih =>
    by_cases hd : strStartsWith o.date (year ++ "-")
    · by_cases hv : o.value = .str "." <;> simp [inYearValid, hd, hv, ih]
    · simp [inYearValid, hd, ih]

theorem avgForYear_eq (obs : List Obs) (year : String) :
    avgForYear obs year =
      if (inYearValid year obs).length = 0 then none
      else some (jsDiv
        (((inYearValid year obs).map (fun o => obsNumber o.value)).foldl jsAdd (.num 0))
        (.num ((inYearValid year obs).length : ℚ))) := by
  unfold avgForYear
  simp only [avgForYear_vals, List.length_map]

theorem foldl_jsAdd_num (qs : List ℚ) : ∀ a : ℚ,
    (qs.map JSNum.num).foldl jsAdd (.num a) = .num (a + qs.sum) := by
  induction qs with
  | nil => intro a; simp
  | cons q t ih => intro a; simp [jsAdd, ih, add_assoc]

/-- C6: `avgForYear` with target year `"2024"` is absent exactly when the
series has no kept 2024 entry, and otherwise is the arithmetic mean of
the coerced values of the kept 2024 entries (stated for series whose
kept values coerce to plain rationals). -/
theorem c6_avgForYear (obs : List Obs) (qs : List ℚ)
    (h : (inYearValid "2024" obs).map (fun o => obsNumber o.value) = qs.map JSNum.num) :
    (avgForYear obs "2024" = none ↔ inYearValid "2024" obs = [])
    ∧ (inYearValid "2024" obs ≠ [] →
        avgForYear obs "2024" = some (.num (qs.sum / (qs.length : ℚ)))) := by
  have hlen : (inYearValid "2024" obs).length = qs.length := by
    have hc := congrArg List.length h
    simpa using hc
  constructor
  · rw [avgForYear_eq]
    by_cases hnil : inYearValid "2024" obs = []
    · simp [hnil]
    · have hne : (inYearValid "2024" obs).length ≠ 0 := by
        simpa [List.length_eq_zero] using hnil
      simp [hne, hnil]
  · intro hnil
    have hne : (inYearValid "2024" obs).length ≠ 0 := by
      simpa [List.length_eq_zero] using hnil
    rw [avgForYear_eq, if_neg hne, h, foldl_jsAdd_num, hlen]
    have hq : (qs.length : ℚ) ≠ 0 := by
      have hq0 : qs.length ≠ 0 := by rw [← hlen]; exact hne
      exact_mod_cast hq0
    simp [jsDiv, hq]

/-- Witness for C6: in-year valid values 100, 200, 300 average to 200. -/
theorem c6_avgForYear_witness :
    avgForYear [⟨"2024-01-15", .str "100"⟩, ⟨"2024-02-15", .str "200"⟩,
      ⟨"2024-03-15", .str "300"⟩] "2024" = some (.num 200) := by
  have h := (c6_avgForYear [⟨"2024-01-15", .str "100"⟩, ⟨"2024-02-15", .str "200"⟩,
      ⟨"2024-03-15", .str "300"⟩] [100, 200, 300] (by decide)).2 (by decide)
  rw [h]
  decide

/-- C7: whenever `buildItem` produces an item, its `value` field is
`Math.round` of `toEURperT` applied to the raw current value and the
exchange rate; `toEURperT` multiplies by `22.04622` before the rate
exactly for the sugar kind; and a sugar raw value of 20 at rate 0.9
rounds to 397. -/
theorem c7_display_value (label kind : String) (obs : List Obs) (r : JSNum) (it : Item)
    (h : buildItem label kind obs r = .ok (some it)) :
    it.toValue = (lastNonNull obs).map (fun c => jsRound (toEURperT kind c.v r))
    ∧ (∀ q rr : ℚ, toEURperT "sugar" (.num q) (.num rr) = .num (q * 22.04622 * rr))
    ∧ (kind ≠ "sugar" → ∀ q rr : ℚ, toEURperT kind (.num q) (.num rr) = .num (q * rr))
    ∧ jsRound (toEURperT "sugar" (.num 20) (.num 0.9)) = .num 397 := by
  refine ⟨?_, fun q rr => rfl, fun hk q rr => by simp [toEURperT, hk, jsMul], by decide⟩
  cases hl : lastNonNull obs with
  | none => simp [buildItem, hl] at h
  | some cur =>
    simp only [buildItem, hl] at h
    split at h
    · exact Except.noConfusion h
    · split at h
      · exact Except.noConfusion h
      · simp only [Except.ok.injEq, Option.some.injEq] at h
        subst h
        simp [Item.toValue]

/-- Successful `buildItem` input used in the C7 witness: two valid 2024
sugar observations (10 then 20 cents/lb) at rate 0.9. -/
def c7obs : List Obs := [⟨"2024-01-01", .str "10"⟩, ⟨"2024-02-01", .str "20"⟩]

/-- Witness for C7, instantiated at the sugar series `c7obs`. -/
theorem c7_display_value_witness :
    (Item.display "🍚 Zucker" (.num 397)
        "EUR/t • Feb. 2024 • +100,00% vs VM • +33,33% vs 2024-Ø").toValue
      = (lastNonNull c7obs).map (fun c => jsRound (toEURperT "sugar" c.v (.num 0.9)))
    ∧ (∀ q rr : ℚ, toEURperT "sugar" (.num q) (.num rr) = .num (q * 22.04622 * rr))
    ∧ ("sugar" ≠ "sugar" → ∀ q rr : ℚ, toEURperT "sugar" (.num q) (.num rr) = .num (q * rr))
    ∧ jsRound (toEURperT "sugar" (.num 20) (.num 0.9)) = .num 397 :=
  c7_display_value "🍚 Zucker" "sugar" c7obs (.num 0.9)
    (.display "🍚 Zucker" (.num 397)
      "EUR/t • Feb. 2024 • +100,00% vs VM • +33,33% vs 2024-Ø") (by decide)

/-- Wheat series used in the C8 raw-basis check: raw values 200 then 100,
rate 0.8.  The rendered delta is `-50,00%` (raw 100 vs raw 200), not the
`-60%` that comparing the converted display value 80 against raw 200
would give. -/
def c8obs : List Obs := [⟨"2024-01-01", .str "200"⟩, ⟨"2024-02-01", .str "100"⟩]

/-- C8: `pct` computes `(cur - base) / base * 100`, is absent on an
absent base, gives 10 and -10 on the spec examples, and in `buildItem`
the deltas are taken against raw values (concrete run on `c8obs`). -/
theorem c8_pct (c b : ℚ) (x : JSNum) (hb : b ≠ 0) :
    pct (.num c) (some (.num b)) = some (.num ((c - b) / b * 100))
    ∧ pct x none = none
    ∧ pct (.num 110) (some (.num 100)) = some (.num 10)
    ∧ pct (.num 90) (some (.num 100)) = some (.num (-10))
    ∧ buildItem "🌾 Weizen" "wheat" c8obs (.num 0.8)
        = .ok (some (.display "🌾 Weizen" (.num 80)
            "EUR/t • Feb. 2024 • -50,00% vs VM • -33,33% vs 2024-Ø")) := by
  refine ⟨?_, rfl, by decide, by decide, by decide⟩
  simp [pct, jsSub, jsNeg, jsAdd, jsDiv, jsMul, hb, sub_eq_add_neg]

/-- Witness for C8 at current 110, base 100. -/
theorem c8_pct_witness :
    pct (.num 110) (some (.num 100)) = some (.num (((110 : ℚ) - 100) / 100 * 100))
    ∧ pct JSNum.nan none = none
    ∧ pct (.num 110) (some (.num 100)) = some (.num 10)
    ∧ pct (.num 90) (some (.num 100)) = some (.num (-10))
    ∧ buildItem "🌾 Weizen" "wheat" c8obs (.num 0.8)
        = .ok (some (.display "🌾 Weizen" (.num 80)
            "EUR/t • Feb. 2024 • -50,00% vs VM • -33,33% vs 2024-Ø")) :=
  c8_pct 110 100 .nan (by norm_num)

/-- C9: an exchange-rate response that parses but lacks `rates.EUR`
yields the hardcoded 0.93 without raising. -/
theorem c9_fx_default (a : Nat → Except String (Option FxResponse)) (fx : Option FxResponse)
    (hf : fetchJSON 2 a = .ok fx)
    (hr : (fx.bind FxResponse.rates).bind FxRates.EUR = none) :
    usdToEur a = .ok (.num 0.93) := by
  simp [usdToEur, hf, hr]

/-- Witness for C9: a response whose body has no `rates` field. -/
theorem c9_fx_default_witness :
    usdToEur (fun _ => .ok (some ⟨none⟩)) = .ok (.num 0.93) :=
  c9_fx_default (fun _ => .ok (some ⟨none⟩)) (some ⟨none⟩) rfl rfl

/-! Helper lemmas about the `Except` plumbing of the main pipeline. -/

theorem except_bind_ok {α β : Type} {x : Except String α} {f : α → Except String β} {b : β}
    (h : x >>= f = .ok b) : ∃ a, x = .ok a ∧ f a = .ok b := by
  cases x with
  | ok a => exact ⟨a, rfl, h⟩
  | error e => exact Except.noConfusion h

theorem except_error_bind {α β : Type} (e : String) (f : α → Except String β) :
    (Except.error e : Except String α) >>= f = .error e := rfl

/-- Every item `buildItem` actually produces is a three-field commodity
item. -/
theorem buildItem_isDisplay (label kind : String) (obs : List Obs) (r : JSNum) (it : Item)
    (h : buildItem label kind obs r = .ok (some it)) : it.isDisplay = true := by
  cases hl : lastNonNull obs with
  | none => simp [buildItem, hl] at h
  | some cur =>
    simp only [buildItem, hl] at h
    split at h
    · exact Except.noConfusion h
    · split at h
      · exact Except.noConfusion h
      · simp only [Except.ok.injEq, Option.some.injEq] at h
        subst h; rfl

/-- Success-path network of the C1 counterexample: every fetch succeeds
and every series is empty, so all five `buildItem` calls return absent. -/
def c1net : Network :=
  ⟨fun _ => .ok (some ⟨some ⟨some (.num 0.9)⟩⟩),
   fun _ => .ok (some ⟨some []⟩), fun _ => .ok (some ⟨some []⟩),
   fun _ => .ok (some ⟨some []⟩), fun _ => .ok (some ⟨some []⟩),
   fun _ => .ok (some ⟨some []⟩)⟩

/-- Counterexample to C1: on a run where every fetch succeeds and every
`buildItem` returns absent, the script writes the document containing
only the attribution line — not the fallback document.  The
`items.length` guard is tested after the attribution line has been
appended, so it never selects `fallbackData("leer")` on this path. -/
theorem c1_counterexample :
    (runMain (some "key") c1net).written = ⟨[attributionItem]⟩
    ∧ (⟨[attributionItem]⟩ : OutputDoc) ≠ fallbackData "leer"
    ∧ (⟨[attributionItem]⟩ : OutputDoc) ≠ fallbackData "Fehler"
    ∧ [attributionItem].all (fun it => it.isDisplay = false) = true := by
  refine ⟨by decide, by decide, by decide, by decide⟩

/-- C1 (amended): on every success path the written items list contains
the attribution line as its last element (hence is never empty and never
the `fallbackData "leer"` document), and when all five `buildItem` calls
return absent the written document consists of exactly the attribution
line. -/
theorem c1_amended (apiKey : Option String) (net : Network) (out : OutputDoc)
    (h : tryMain apiKey net = .ok out) :
    out.items ≠ []
    ∧ out.items.getLast? = some attributionItem
    ∧ out ≠ fallbackData "leer"
    ∧ ((∀ it ∈ out.items, it.isDisplay = false) → out.items = [attributionItem]) := by
  rw [tryMain] at h
  obtain ⟨u, hu, h⟩ := except_bind_ok h
  obtain ⟨o1, ho1, h⟩ := except_bind_ok h
  obtain ⟨o2, ho2, h⟩ := except_bind_ok h
  obtain ⟨o3, ho3, h⟩ := except_bind_ok h
  obtain ⟨o4, ho4, h⟩ := except_bind_ok h
  obtain ⟨o5, ho5, h⟩ := except_bind_ok h
  obtain ⟨i1, hi1, h⟩ := except_bind_ok h
  obtain ⟨i2, hi2, h⟩ := except_bind_ok h
  obtain ⟨i3, hi3, h⟩ := except_bind_ok h
  obtain ⟨i4, hi4, h⟩ := except_bind_ok h
  obtain ⟨i5, hi5, h⟩ := except_bind_ok h
  simp only [pure, Except.pure, Except.ok.injEq] at h
  have hsplit : ([i1, i2, i3, i4, i5, some attributionItem] : List (Option Item)).filterMap id
      = ([i1, i2, i3, i4, i5] : List (Option Item)).filterMap id ++ [attributionItem] := by
    have hl : ([i1, i2, i3, i4, i5, some attributionItem] : List (Option Item))
        = [i1, i2, i3, i4, i5] ++ [some attributionItem] := rfl
    rw [hl, List.filterMap_append]; rfl
  rw [hsplit] at h
  have hlen : (([i1, i2, i3, i4, i5] : List (Option Item)).filterMap id
      ++ [attributionItem]).length ≠ 0 := by simp
  rw [if_pos hlen] at h
  subst h
  have hMdisp : ∀ x ∈ ([i1, i2, i3, i4, i5] : List (Option Item)).filterMap id,
      x.isDisplay = true := by
    intro x hx
    simp only [List.mem_filterMap, id] at hx
    obtain ⟨o, ho, hoeq⟩ := hx
    simp only [List.mem_cons, List.not_mem_nil, or_false] at ho
    rcases ho with rfl | rfl | rfl | rfl | rfl
    · rw [hoeq] at hi1; exact buildItem_isDisplay _ _ _ _ x hi1
    · rw [hoeq] at hi2; exact buildItem_isDisplay _ _ _ _ x hi2
    · rw [hoeq] at hi3; exact buildItem_isDisplay _ _ _ _ x hi3
    · rw [hoeq] at hi4; exact buildItem_isDisplay _ _ _ _ x hi4
    · rw [hoeq] at hi5; exact buildItem_isDisplay _ _ _ _ x hi5
  refine ⟨by simp, List.getLast?_concat _, ?_, ?_⟩
  · intro heq
    have h2 := congrArg (fun d => d.items.getLast?) heq
    simp only [List.getLast?_concat, fallbackData] at h2
    have h3 : (([.display "🍫 Kakao" (.num 4200) ("EUR/t • " ++ "leer"),
        .display "🍚 Zucker" (.num 680) ("EUR/t • " ++ "leer"),
        .display "🌾 Weizen" (.num 255) ("EUR/t • " ++ "leer"),
        .display "🌽 Mais" (.num 205) ("EUR/t • " ++ "leer"),
        .display "🍚 Reis" (.num 520) ("EUR/t • " ++ "leer"),
        .textOnly ("Quelle: IMF über FRED (" ++ "leer" ++ ")")] : List Item).getLast?)
        = some (.textOnly ("Quelle: IMF über FRED (" ++ "leer" ++ ")")) := by decide
    rw [h3] at h2
    exact absurd h2 (by decide)
  · intro hall
    cases hMe : ([i1, i2, i3, i4, i5] : List (Option Item)).filterMap id with
    | nil => simp [hMe]
    | cons x t =>
      have hx : x.isDisplay = true := hMdisp x (by rw [hMe]; exact List.mem_cons_self _ _)
      have hx2 : x.isDisplay = false := by
        refine hall x ?_
        show x ∈ ([i1, i2, i3, i4, i5] : List (Option Item)).filterMap id ++ [attributionItem]
        rw [hMe]; simp
      rw [hx] at hx2
      exact Bool.noConfusion hx2

/-- Witness for C1 (amended), on the all-empty-series success run of
`c1net`. -/
theorem c1_amended_witness :
    (⟨[attributionItem]⟩ : OutputDoc).items ≠ []
    ∧ (⟨[attributionItem]⟩ : OutputDoc).items.getLast? = some attributionItem
    ∧ (⟨[attributionItem]⟩ : OutputDoc) ≠ fallbackData "leer"
    ∧ ((∀ it ∈ (⟨[attributionItem]⟩ : OutputDoc).items, it.isDisplay = false) →
        (⟨[attributionItem]⟩ : OutputDoc).items = [attributionItem]) :=
  c1_amended (some "key") c1net ⟨[attributionItem]⟩ (by decide)

/-- One single-observation series of the C2 scenario (date outside 2024,
so the yearly average is also absent). -/
def c2obs (d : String) : List Obs := [⟨d, .str "100"⟩]

/-- Network of the C2 scenario: a successful exchange-rate fetch and five
commodities with one valid current observation each and no prior or
in-year data. -/
def c2net : Network :=
  ⟨fun _ => .ok (some ⟨some ⟨some (.num 0.9)⟩⟩),
   fun _ => .ok (some ⟨some (c2obs "2025-01-01")⟩),
   fun _ => .ok (some ⟨some (c2obs "2025-02-01")⟩),
   fun _ => .ok (some ⟨some (c2obs "2025-03-01")⟩),
   fun _ => .ok (some ⟨some (c2obs "2025-04-01")⟩),
   fun _ => .ok (some ⟨some (c2obs "2025-05-01")⟩)⟩

/-- C2 fails on the code: because `isFinite(null)` is `true`, a series
whose previous valid value is absent drives `buildItem` into
`null.toFixed(2)`, which throws a `TypeError`; on the spec's end-to-end
scenario the catch handler therefore writes `fallbackData("Fehler")`
instead of the six-item document with delta-free annotations. -/
theorem c2_null_delta_bug :
    isFiniteJS none = true
    ∧ buildItem "🍫 Kakao" "cocoa" (c2obs "2025-01-01") (.num 0.9)
        = .error "TypeError: null has no toFixed"
    ∧ runMain (some "key") c2net = ⟨fallbackData "Fehler", 0⟩ := by
  refine ⟨rfl, by decide, by decide⟩

/-- With attempts that always fail, the retry loop surfaces an error. -/
theorem fetchJSONLoop_error {α : Type} (attempt : Nat → Except String α)
    (h : ∀ i, ∃ e, attempt i = .error e) :
    ∀ r i, ∃ e, fetchJSONLoop attempt i r = .error e := by
  intro r
  induction r with
  | zero =>
    intro i
    obtain ⟨e, he⟩ := h i
    exact ⟨e, by simp [fetchJSONLoop, he]⟩
  | succ r ih =>
    intro i
    obtain ⟨e, he⟩ := h i
    obtain ⟨e2, he2⟩ := ih (i + 1)
    exact ⟨e2, by simp [fetchJSONLoop, he, he2]⟩

/-- C3: when every fetch fails on every retry attempt, the run still
produces a written document — the deterministic `fallbackData("Fehler")`
document — and the process exits 0. -/
theorem c3_fallback (apiKey : Option String) (net : Network)
    (hfx : ∀ i, ∃ e, net.fx i = .error e)
    (hcocoa : ∀ i, ∃ e, net.cocoa i = .error e)
    (hsugar : ∀ i, ∃ e, net.sugar i = .error e)
    (hwheat : ∀ i, ∃ e, net.wheat i = .error e)
    (hcorn : ∀ i, ∃ e, net.corn i = .error e)
    (hrice : ∀ i, ∃ e, net.rice i = .error e) :
    runMain apiKey net = ⟨fallbackData "Fehler", 0⟩ := by
  obtain ⟨e, he⟩ := fetchJSONLoop_error net.fx hfx 2 0
  have hu : usdToEur net.fx = .error e := by
    simp [usdToEur, fetchJSON, he]
  have ht : tryMain apiKey net = .error e := by
    rw [tryMain, hu, except_error_bind]
  simp [runMain, ht]

/-- All-failing network used in the C3 witness. -/
def c3net : Network :=
  ⟨fun _ => .error "Timeout", fun _ => .error "Timeout", fun _ => .error "Timeout",
   fun _ => .error "Timeout", fun _ => .error "Timeout", fun _ => .error "Timeout"⟩

/-- Witness for C3: every attempt of every fetch times out. -/
theorem c3_fallback_witness :
    runMain (some "key") c3net = ⟨fallbackData "Fehler", 0⟩ :=
  c3_fallback (some "key") c3net (fun _ => ⟨"Timeout", rfl⟩) (fun _ => ⟨"Timeout", rfl⟩)
    (fun _ => ⟨"Timeout", rfl⟩) (fun _ => ⟨"Timeout", rfl⟩) (fun _ => ⟨"Timeout", rfl⟩)
    (fun _ => ⟨"Timeout", rfl⟩)

/-- Rich two-observation series for the four healthy commodities of the
C10 scenario. -/
def c10obs : List Obs := [⟨"2024-01-01", .str "100"⟩, ⟨"2024-02-01", .str "200"⟩]

/-- Network of the C10 scenario: the cocoa response parses but lacks the
`observations` list; the other five endpoints behave normally (rate 1). -/
def c10net : Network :=
  ⟨fun _ => .ok (some ⟨some ⟨some (.num 1)⟩⟩),
   fun _ => .ok (some ⟨none⟩),
   fun _ => .ok (some ⟨some c10obs⟩), fun _ => .ok (some ⟨some c10obs⟩),
   fun _ => .ok (some ⟨some c10obs⟩), fun _ => .ok (some ⟨some c10obs⟩)⟩

/-- The annotation every healthy commodity of the C10 scenario gets. -/
def c10extra : String := "EUR/t • Feb. 2024 • +100,00% vs VM • +33,33% vs 2024-Ø"

/-- The document the C10 scenario writes: four commodity items (no
cocoa) plus the attribution line. -/
def c10doc : OutputDoc :=
  ⟨[ .display "🍚 Zucker" (.num 4409) c10extra,
     .display "🌾 Weizen" (.num 200) c10extra,
     .display "🌽 Mais" (.num 200) c10extra,
     .display "🍚 Reis" (.num 200) c10extra,
     attributionItem ]⟩

/-- C10: a FRED response that parses but lacks the `observations` list
yields an empty series rather than an error; `buildItem` on an empty
series returns absent, so the commodity is silently omitted; and on a run
where only the cocoa response has that defect the output document simply
lacks the cocoa item — no fallback is triggered by that condition alone. -/
theorem c10_missing_observations (apiKey : Option String)
    (a : Nat → Except String (Option FredResponse)) (j : Option FredResponse)
    (label kind : String) (r : JSNum)
    (hkey : (apiKey.getD "").isEmpty = false)
    (hf : fetchJSON 2 a = .ok j)
    (hobs : j.bind FredResponse.observations = none) :
    fredSeries apiKey a = .ok []
    ∧ buildItem label kind [] r = .ok none
    ∧ runMain (some "key") c10net = ⟨c10doc, 0⟩
    ∧ c10doc ≠ fallbackData "Fehler"
    ∧ c10doc ≠ fallbackData "leer"
    ∧ c10doc.items.all (fun it => it.text != "🍫 Kakao") = true := by
  refine ⟨?_, rfl, by decide, by decide, by decide, by decide⟩
  simp [fredSeries, hkey, hf, hobs]

/-- Witness for C10: cocoa response body without an `observations`
field. -/
theorem c10_missing_observations_witness :
    fredSeries (some "key") (fun _ => .ok (some ⟨none⟩)) = .ok []
    ∧ buildItem "🍫 Kakao" "cocoa" [] (.num 1) = .ok none
    ∧ runMain (some "key") c10net = ⟨c10doc, 0⟩
    ∧ c10doc ≠ fallbackData "Fehler"
    ∧ c10doc ≠ fallbackData "leer"
    ∧ c10doc.items.all (fun it => it.text != "🍫 Kakao") = true :=
  c10_missing_observations (some "key") (fun _ => .ok (some ⟨none⟩)) (some ⟨none⟩)
    "🍫 Kakao" "cocoa" (.num 1) rfl rfl rfl

end UpdateTicker
